import Mathlib

/-!
Shallow embedding of `examples/text-generation/text-generation.ipynb` from the
sagemaker-dashboards-for-ml repository.

The notebook is a linear script driving external services (SageMaker, S3, ECR,
ECS, Docker).  We embed it as an environment-parameterised trace of external
actions, transcribed cell by cell from the source.  The two helper functions
`get_dashboard_url` and `get_docker_run_command` live in a `utils` module whose
source is not part of the repository snapshot; they are modelled from the
specification's description of them.
-/

namespace Dashboards

/-! ### Substring containment on character lists -/

/-- Boolean test that the second list is a leading segment of the first. -/
def startsWithL : List Char → List Char → Bool
  | _, [] => true
  | [], _ :: _ => false
  | a :: as, b :: bs => a == b && startsWithL as bs

/-- Boolean substring test: `needle` occurs contiguously inside `haystack`. -/
def hasSub : List Char → List Char → Bool
  | [], needle => needle.isEmpty
  | a :: t, needle => startsWithL (a :: t) needle || hasSub t needle

/-- String-level substring containment. -/
def strContains (s sub : String) : Bool :=
  hasSub s.data sub.data

/-! ### Helper functions of the `utils` module

Modelled from the spec: the `utils` module itself is not under the repository
snapshot, only its call sites in the notebook are.  The spec describes the two
helpers as pure string-formatting utilities: a dashboard-URL builder producing
the Jupyter Server Proxy URL for a local port, and a `docker run` command
builder that handles port forwarding, local directory mounts, debug modes and
credential passing. -/

/-- Modelled from the spec: `utils.get_dashboard_url(port)` constructs the
Jupyter Server Proxy URL for a local port, of the shape documented in the
notebook. The notebook URL itself is obtained from the
instance environment; here it is an explicit argument. -/
def get_dashboard_url (notebook_url : String) (port : Nat) : String :=
  "https://" ++ notebook_url ++ "/proxy/" ++ toString port

/-- One argument of the constructed container-run command. -/
inductive DockerArg
  | portMapping (host container : Nat)
  | awsCredentials
  | volumeMount (localDir containerDir : String)
  | debugFlag
  | imageName (name : String)
deriving DecidableEq, Repr

/-- Modelled from the spec: the argument list assembled by
`utils.get_docker_run_command(port, image_name, local_dir_mount, debug)`.
It always carries the port mapping (local port to container port 80, as
documented in the notebook), the credential pass-through, and the image name;
it carries a volume mount exactly when a local directory is specified and a
debug flag exactly when debug is requested. -/
def get_docker_run_args (port : Nat) (image_name : String)
    (local_dir_mount : Option String := none) (debug : Bool := false) :
    List DockerArg :=
  [DockerArg.portMapping port 80, DockerArg.awsCredentials]
    ++ (match local_dir_mount with
        | some d => [DockerArg.volumeMount d "/dashboard/src"]
        | none => [])
    ++ (if debug then [DockerArg.debugFlag] else [])
    ++ [DockerArg.imageName image_name]

/-- Rendering of a single command argument to text. -/
def renderArg : DockerArg → String
  | DockerArg.portMapping h c => "-p " ++ toString h ++ ":" ++ toString c
  | DockerArg.awsCredentials => "--env AWS_EXECUTION_ROLE"
  | DockerArg.volumeMount l c => "-v " ++ l ++ ":" ++ c
  | DockerArg.debugFlag => "--log-level debug"
  | DockerArg.imageName n => n

/-- Space-separated join of rendered arguments. -/
def joinArgs : List String → String
  | [] => ""
  | [x] => x
  | x :: y :: rest => x ++ " " ++ joinArgs (y :: rest)

/-- Modelled from the spec: the command string returned by
`utils.get_docker_run_command`. -/
def get_docker_run_command (port : Nat) (image_name : String)
    (local_dir_mount : Option String := none) (debug : Bool := false) :
    String :=
  "docker run " ++
    joinArgs ((get_docker_run_args port image_name local_dir_mount debug).map
      renderArg)

/-! ### The notebook as a trace of external actions -/

/-- The inputs the notebook reads: the resource identifiers supplied through
environment variables (after the optional `.env` load), whether the `.env`
file exists, the execution role returned by `sagemaker.get_execution_role()`,
and the notebook instance URL underlying the proxy address. -/
structure Env where
  DASHBOARD_S3_BUCKET : String
  DASHBOARD_SAGEMAKER_MODEL : String
  AWS_ACCOUNT_ID : String
  AWS_REGION : String
  DASHBOARD_ECR_REPOSITORY : String
  DASHBOARD_ECS_CLUSTER : String
  DASHBOARD_ECR_SERVICE : String
  DASHBOARD_URL : String
  DASHBOARD_ALB : String
  dotenvFileExists : Bool
  executionRole : String
  notebookUrl : String
deriving Repr, DecidableEq

/-- An externally observable step of the notebook: each constructor is one
SDK call, shell command or console output appearing in a code cell. -/
inductive Action
  | loadDotenv
  | fetchTokenizer (model cacheDir : String)
  | fetchModel (model cacheDir : String)
  | tarPackage (srcDir archive : String)
  | s3Upload (localFile bucketUri : String)
  | defineModel (name modelData entryPoint sourceDir role frameworkVersion
      pyVersion codeLocation : String)
  | deployEndpoint (endpointName instanceType : String)
      (initialInstanceCount : Nat)
  | dockerBuild (image buildArgModel : String)
  | echoLine (line : String)
  | dockerRun (command : String)
  | dockerTag (src dst : String)
  | ecrLogin
  | dockerPush (image : String)
  | ecsUpdateService (cluster service : String) (desiredCount : Nat)
  | warn (message : String)
  | printLine (line : String)
  | deleteEndpoint (endpointName : String)
  | deleteModel
deriving DecidableEq, Repr

/-- The exact warning text built in the final URL cell. -/
def cnameWarning (dashboardUrl dashboardAlb : String) : String :=
  "\n" ++ String.intercalate "\n"
    ["Add CNAME record on your domain before continuing!",
     "from: " ++ dashboardUrl,
     "to: " ++ dashboardAlb,
     "Otherwise you will see 'An error was encountered with the requested page' with Amazon Cognito."]

/-- The final URL cell: warn about the CNAME record when `DASHBOARD_URL`
differs from `DASHBOARD_ALB`, then print the dashboard URL. -/
def finalUrlCell (dashboardUrl dashboardAlb : String) : List Action :=
  (if dashboardUrl ≠ dashboardAlb
    then [Action.warn (cnameWarning dashboardUrl dashboardAlb)]
    else [])
  ++ [Action.printLine ("DASHBOARD_URL: https://" ++ dashboardUrl)]

/-- The ECR image reference used for both `docker tag` and `docker push`. -/
def ecrImageUri (env : Env) : String :=
  env.AWS_ACCOUNT_ID ++ ".dkr.ecr." ++ env.AWS_REGION ++
    ".amazonaws.com/" ++ env.DASHBOARD_ECR_REPOSITORY ++ ":latest"

/-- The external steps of the notebook, in cell order.  Constants `8501`
(`port`) and `"dashboard"` (`image_name`) are the literals assigned in the
notebook; `"distilgpt2"` and the cache and entry-point paths are transcribed
from the cells. -/
def notebookTrace (env : Env) : List Action :=
  (if env.dotenvFileExists then [Action.loadDotenv] else [])
  ++ [Action.fetchTokenizer "distilgpt2" "./model_assets",
      Action.fetchModel "distilgpt2" "./model_assets",
      Action.tarPackage "model_assets" "../model_assets.tar.gz",
      Action.s3Upload "./model_assets.tar.gz"
        ("s3://" ++ env.DASHBOARD_S3_BUCKET),
      Action.defineModel env.DASHBOARD_SAGEMAKER_MODEL
        ("s3://" ++ env.DASHBOARD_S3_BUCKET ++ "/model_assets.tar.gz")
        "entry_point.py" "./model" env.executionRole "1.5.0" "py3"
        ("s3://" ++ env.DASHBOARD_S3_BUCKET ++ "/code"),
      Action.deployEndpoint env.DASHBOARD_SAGEMAKER_MODEL "ml.c5.xlarge" 1,
      Action.dockerBuild "dashboard" env.DASHBOARD_SAGEMAKER_MODEL,
      Action.echoLine
        ("Dashboard URL: " ++ get_dashboard_url env.notebookUrl 8501),
      Action.dockerRun
        (get_docker_run_command 8501 "dashboard" (some "./dashboard/src") true),
      Action.dockerBuild "dashboard" env.DASHBOARD_SAGEMAKER_MODEL,
      Action.echoLine
        ("Dashboard URL: " ++ get_dashboard_url env.notebookUrl 8501),
      Action.dockerRun (get_docker_run_command 8501 "dashboard"),
      Action.dockerTag "dashboard" (ecrImageUri env),
      Action.ecrLogin,
      Action.dockerPush (ecrImageUri env),
      Action.ecsUpdateService env.DASHBOARD_ECS_CLUSTER
        env.DASHBOARD_ECR_SERVICE 2]
  ++ finalUrlCell env.DASHBOARD_URL env.DASHBOARD_ALB
  ++ [Action.ecsUpdateService env.DASHBOARD_ECS_CLUSTER
        env.DASHBOARD_ECR_SERVICE 0,
      Action.deleteEndpoint env.DASHBOARD_SAGEMAKER_MODEL,
      Action.deleteModel]

/-! ### Projections of the trace -/

/-- Desired task count requested of the orchestration service, when the
action is an `update-service` call. -/
def desiredCountOf : Action → Option Nat
  | Action.ecsUpdateService _ _ n => some n
  | _ => none

/-- The `model_data` argument of a SageMaker model definition. -/
def modelDataOf : Action → Option String
  | Action.defineModel _ modelData _ _ _ _ _ _ => some modelData
  | _ => none

/-- The `code_location` argument of a SageMaker model definition. -/
def codeLocationOf : Action → Option String
  | Action.defineModel _ _ _ _ _ _ _ codeLocation => some codeLocation
  | _ => none

/-- Target reference of a `docker tag` call. -/
def tagTargetOf : Action → Option String
  | Action.dockerTag _ dst => some dst
  | _ => none

/-- Image reference of a `docker push` call. -/
def pushImageOf : Action → Option String
  | Action.dockerPush image => some image
  | _ => none

/-- Name, entry point and source directory of a SageMaker model definition. -/
def modelDefOf : Action → Option (String × String × String)
  | Action.defineModel name _ entryPoint sourceDir _ _ _ _ =>
      some (name, entryPoint, sourceDir)
  | _ => none

/-- Endpoint name, instance type and instance count of a deployment. -/
def deployOf : Action → Option (String × String × Nat)
  | Action.deployEndpoint n t c => some (n, t, c)
  | _ => none

/-- Phase number of an externally delegated step, following the spec's
numbering: (1) configuration load, (2) model-artifact fetch, (3) package and
upload, (4) endpoint definition and deployment, (5) local container build and
run, (6) image push to the registry, (7) service scale-up, (8) teardown.
Console output lines belong to no phase. -/
def phaseOf : Action → Option Nat
  | Action.loadDotenv => some 1
  | Action.fetchTokenizer _ _ => some 2
  | Action.fetchModel _ _ => some 2
  | Action.tarPackage _ _ => some 3
  | Action.s3Upload _ _ => some 3
  | Action.defineModel _ _ _ _ _ _ _ _ => some 4
  | Action.deployEndpoint _ _ _ => some 4
  | Action.dockerBuild _ _ => some 5
  | Action.dockerRun _ => some 5
  | Action.dockerTag _ _ => some 6
  | Action.ecrLogin => some 6
  | Action.dockerPush _ => some 6
  | Action.ecsUpdateService _ _ n => if n = 0 then some 8 else some 7
  | Action.deleteEndpoint _ => some 8
  | Action.deleteModel => some 8
  | Action.echoLine _ => none
  | Action.warn _ => none
  | Action.printLine _ => none

/-! ### Sequential execution model

Each cell's calls run one after another in the interactive session; an
exception from an external call aborts the run.  `runActions` executes a list
of actions under an arbitrary effect assignment; `attemptedActions` records
which actions were actually attempted, in order. -/

/-- Run the actions in order, stopping at the first error, which is
returned unchanged. -/
def runActions (effect : Action → Except String Unit) :
    List Action → Except String Unit
  | [] => Except.ok ()
  | a :: rest =>
    match effect a with
    | Except.error e => Except.error e
    | Except.ok _ => runActions effect rest

/-- The actions attempted during `runActions`, in the order attempted. -/
def attemptedActions (effect : Action → Except String Unit) :
    List Action → List Action
  | [] => []
  | a :: rest =>
    match effect a with
    | Except.error _ => [a]
    | Except.ok _ => a :: attemptedActions effect rest

/-- Effect assignment making every external call succeed. -/
def okEffect : Action → Except String Unit :=
  fun _ => Except.ok ()

/-- Effect assignment on which the very first artifact fetch raises. -/
def failFetchEffect : Action → Except String Unit :=
  fun a =>
    match a with
    | Action.fetchTokenizer _ _ => Except.error "boom"
    | _ => Except.ok ()

/-- A concrete assignment of the notebook's inputs, used to witness the
hypothesised theorems. -/
def env0 : Env where
  DASHBOARD_S3_BUCKET := "bucket"
  DASHBOARD_SAGEMAKER_MODEL := "distilgpt2-model"
  AWS_ACCOUNT_ID := "123456789012"
  AWS_REGION := "us-east-1"
  DASHBOARD_ECR_REPOSITORY := "repo"
  DASHBOARD_ECS_CLUSTER := "cluster"
  DASHBOARD_ECR_SERVICE := "service"
  DASHBOARD_URL := "dashboard.example.com"
  DASHBOARD_ALB := "alb-123.us-east-1.elb.amazonaws.com"
  dotenvFileExists := false
  executionRole := "role"
  notebookUrl := "nb.example.com"

/-! ### Lemmas about substring containment -/

theorem startsWithL_iff (n : List Char) : ∀ l : List Char,
    startsWithL l n = true ↔ ∃ t, l = n ++ t := by
  induction n with
  | nil =>
    intro l
    cases l <;> simp [startsWithL]
  | cons b bs ih =>
    intro l
    cases l with
    | nil => simp [startsWithL]
    | cons a as =>
      simp only [startsWithL, Bool.and_eq_true, beq_iff_eq, ih,
        List.cons_append, List.cons.injEq]
      constructor
      · rintro ⟨rfl, t, rfl⟩
        exact ⟨t, rfl, rfl⟩
      · rintro ⟨t, rfl, rfl⟩
        exact ⟨rfl, t, rfl⟩

theorem hasSub_iff (n : List Char) : ∀ l : List Char,
    hasSub l n = true ↔ ∃ pre suf, l = pre ++ n ++ suf := by
  intro l
  induction l with
  | nil =>
    simp only [hasSub, List.isEmpty_iff]
    constructor
    · rintro rfl
      exact ⟨[], [], rfl⟩
    · rintro ⟨pre, suf, h⟩
      rcases List.append_eq_nil.mp h.symm with ⟨h1, h2⟩
      exact (List.append_eq_nil.mp h1).2
  | cons a t ih =>
    simp only [hasSub, Bool.or_eq_true, startsWithL_iff, ih]
    constructor
    · rintro (⟨s, hs⟩ | ⟨pre, suf, hps⟩)
      · exact ⟨[], s, by simp [hs]⟩
      · exact ⟨a :: pre, suf, by simp [hps]⟩
    · rintro ⟨pre, suf, hps⟩
      cases pre with
      | nil => exact Or.inl ⟨suf, by simpa using hps⟩
      | cons p ps =>
        right
        refine ⟨ps, suf, ?_⟩
        have := hps
        simp only [List.cons_append] at this
        exact (List.cons.injEq _ _ _ _ ▸ this).2

theorem strContains_iff (s sub : String) :
    strContains s sub = true ↔ ∃ pre suf, s.data = pre ++ sub.data ++ suf := by
  simp [strContains, hasSub_iff]

theorem dataAppend (a b : String) : (a ++ b).data = a.data ++ b.data := rfl

theorem strContains_self (s : String) : strContains s s = true :=
  (strContains_iff s s).mpr ⟨[], [], by simp⟩

theorem strContains_append_left (a b n : String)
    (h : strContains a n = true) : strContains (a ++ b) n = true := by
  rcases (strContains_iff a n).mp h with ⟨pre, suf, hps⟩
  exact (strContains_iff _ n).mpr
    ⟨pre, suf ++ b.data, by simp [dataAppend, hps]⟩

theorem strContains_append_right (a b n : String)
    (h : strContains b n = true) : strContains (a ++ b) n = true := by
  rcases (strContains_iff b n).mp h with ⟨pre, suf, hps⟩
  exact (strContains_iff _ n).mpr
    ⟨a.data ++ pre, suf, by simp [dataAppend, hps]⟩

theorem strContains_trans (s m n : String)
    (hsm : strContains s m = true) (hmn : strContains m n = true) :
    strContains s n = true := by
  rcases (strContains_iff s m).mp hsm with ⟨p1, s1, h1⟩
  rcases (strContains_iff m n).mp hmn with ⟨p2, s2, h2⟩
  exact (strContains_iff s n).mpr
    ⟨p1 ++ p2, s2 ++ s1, by simp [h1, h2]⟩

theorem strContains_joinArgs (x : String) : ∀ xs : List String, x ∈ xs →
    strContains (joinArgs xs) x = true := by
  intro xs
  induction xs with
  | nil => intro hx; cases hx
  | cons a t ih =>
    intro hx
    cases t with
    | nil =>
      have : x = a := by simpa using hx
      subst this
      simpa [joinArgs] using strContains_self x
    | cons b r =>
      rcases List.mem_cons.mp hx with rfl | hmem
      · exact strContains_append_left _ _ _
          (strContains_append_left _ _ _ (strContains_self x))
      · exact strContains_append_right _ _ _ (ih hmem)

/-! ### Claim theorems -/

/-- C2: for every port number `p` (and any notebook instance URL), the string
returned by `get_dashboard_url` contains the decimal representation of `p`. -/
theorem get_dashboard_url_contains_port (notebook_url : String) (p : Nat) :
    strContains (get_dashboard_url notebook_url p) (toString p) = true := by
  refine (strContains_iff _ _).mpr
    ⟨("https://" ++ notebook_url ++ "/proxy/").data, [], ?_⟩
  simp [get_dashboard_url, dataAppend]

/-- C1: the constructed container-run command carries the port mapping for the
given port and the given image name (both structurally in the argument list
and textually in the rendered command string), carries a volume mount exactly
when a local directory is specified, and carries a debug flag exactly when
debug is requested. -/
theorem get_docker_run_command_spec (port : Nat) (image_name : String)
    (local_dir_mount : Option String) (debug : Bool) :
    DockerArg.portMapping port 80 ∈
        get_docker_run_args port image_name local_dir_mount debug
    ∧ DockerArg.imageName image_name ∈
        get_docker_run_args port image_name local_dir_mount debug
    ∧ strContains
        (get_docker_run_command port image_name local_dir_mount debug)
        (toString port) = true
    ∧ strContains
        (get_docker_run_command port image_name local_dir_mount debug)
        image_name = true
    ∧ ((∃ d, DockerArg.volumeMount d "/dashboard/src" ∈
          get_docker_run_args port image_name local_dir_mount debug)
        ↔ local_dir_mount.isSome = true)
    ∧ (DockerArg.debugFlag ∈
          get_docker_run_args port image_name local_dir_mount debug
        ↔ debug = true) := by
  have hpm : DockerArg.portMapping port 80 ∈
      get_docker_run_args port image_name local_dir_mount debug := by
    simp [get_docker_run_args]
  have himg : DockerArg.imageName image_name ∈
      get_docker_run_args port image_name local_dir_mount debug := by
    simp [get_docker_run_args]
  have hjoinPort : strContains
      (get_docker_run_command port image_name local_dir_mount debug)
      (renderArg (DockerArg.portMapping port 80)) = true := by
    exact strContains_append_right _ _ _
      (strContains_joinArgs _ _ (List.mem_map_of_mem renderArg hpm))
  have hjoinImg : strContains
      (get_docker_run_command port image_name local_dir_mount debug)
      (renderArg (DockerArg.imageName image_name)) = true := by
    exact strContains_append_right _ _ _
      (strContains_joinArgs _ _ (List.mem_map_of_mem renderArg himg))
  refine ⟨hpm, himg, ?_, ?_, ?_, ?_⟩
  · refine strContains_trans _ _ _ hjoinPort ?_
    show strContains ("-p " ++ toString port ++ ":" ++ toString 80)
      (toString port) = true
    exact strContains_append_left _ _ _ (strContains_append_left _ _ _
      (strContains_append_right _ _ _ (strContains_self _)))
  · exact strContains_trans _ _ _ hjoinImg (strContains_self _)
  · cases local_dir_mount with
    | none => simp [get_docker_run_args]
    | some d => exact ⟨fun _ => rfl, fun _ => ⟨d, by simp [get_docker_run_args]⟩⟩
  · cases debug <;> cases local_dir_mount <;> simp [get_docker_run_args]

/-- C3: the two helper functions are deterministic, pure functions of their
arguments: identical argument tuples yield identical result strings. -/
theorem helpers_pure (nb₁ nb₂ : String) (p₁ p₂ : Nat) (q₁ q₂ : Nat)
    (i₁ i₂ : String) (m₁ m₂ : Option String) (d₁ d₂ : Bool)
    (hnb : nb₁ = nb₂) (hp : p₁ = p₂) (hq : q₁ = q₂) (hi : i₁ = i₂)
    (hm : m₁ = m₂) (hd : d₁ = d₂) :
    get_dashboard_url nb₁ p₁ = get_dashboard_url nb₂ p₂
    ∧ get_docker_run_command q₁ i₁ m₁ d₁ = get_docker_run_command q₂ i₂ m₂ d₂
    := by
  subst hnb hp hq hi hm hd
  exact ⟨rfl, rfl⟩

/-- Witness for C3 at concrete arguments. -/
theorem helpers_pure_witness :
    get_dashboard_url "nb.example.com" 8501
      = get_dashboard_url "nb.example.com" 8501
    ∧ get_docker_run_command 8501 "dashboard" (some "./dashboard/src") true
      = get_docker_run_command 8501 "dashboard" (some "./dashboard/src") true :=
  helpers_pure "nb.example.com" "nb.example.com" 8501 8501 8501 8501
    "dashboard" "dashboard" (some "./dashboard/src") (some "./dashboard/src")
    true true rfl rfl rfl rfl rfl rfl

/-- C4: the environment identifiers flow to the third-party calls verbatim:
the single model definition's `model_data` is the literal concatenation
`s3://` + bucket + `/model_assets.tar.gz`, its `code_location` is
`s3://` + bucket + `/code`, and the image reference given to `docker tag` is
character-for-character the one given to `docker push` (account id, region
and repository embedded verbatim, suffixed `:latest`). -/
theorem env_identifiers_passed_verbatim (env : Env) :
    (notebookTrace env).filterMap modelDataOf
      = ["s3://" ++ env.DASHBOARD_S3_BUCKET ++ "/model_assets.tar.gz"]
    ∧ (notebookTrace env).filterMap codeLocationOf
      = ["s3://" ++ env.DASHBOARD_S3_BUCKET ++ "/code"]
    ∧ (notebookTrace env).filterMap tagTargetOf
      = (notebookTrace env).filterMap pushImageOf
    ∧ (notebookTrace env).filterMap pushImageOf
      = [env.AWS_ACCOUNT_ID ++ ".dkr.ecr." ++ env.AWS_REGION ++
          ".amazonaws.com/" ++ env.DASHBOARD_ECR_REPOSITORY ++ ":latest"] := by
  cases hb : env.dotenvFileExists <;>
    by_cases hu : env.DASHBOARD_URL = env.DASHBOARD_ALB <;>
      refine ⟨?_, ?_, ?_, ?_⟩ <;>
        simp [notebookTrace, hb, hu, finalUrlCell, modelDataOf,
          codeLocationOf, tagTargetOf, pushImageOf, ecrImageUri]

/-- C5: exactly one SageMaker model is defined, its inference entry point is
the single file `entry_point.py` within the source directory `./model`, and
it is deployed exactly once, with one instance, under an endpoint whose name
equals the model name taken from `DASHBOARD_SAGEMAKER_MODEL`. -/
theorem single_model_single_instance_endpoint (env : Env) :
    (notebookTrace env).filterMap modelDefOf
      = [(env.DASHBOARD_SAGEMAKER_MODEL, "entry_point.py", "./model")]
    ∧ (notebookTrace env).filterMap deployOf
      = [(env.DASHBOARD_SAGEMAKER_MODEL, "ml.c5.xlarge", 1)] := by
  cases hb : env.dotenvFileExists <;>
    by_cases hu : env.DASHBOARD_URL = env.DASHBOARD_ALB <;>
      refine ⟨?_, ?_⟩ <;>
        simp [notebookTrace, hb, hu, finalUrlCell, modelDefOf, deployOf]

/-- C6: over the whole script, the desired task counts requested of the
container-orchestration service are exactly `2` (deployment) followed by `0`
(clean-up): `update-service` is called exactly twice and with no other
count. -/
theorem desired_counts_only_two_and_zero (env : Env) :
    (notebookTrace env).filterMap desiredCountOf = [2, 0] := by
  cases hb : env.dotenvFileExists <;>
    by_cases hu : env.DASHBOARD_URL = env.DASHBOARD_ALB <;>
      simp [notebookTrace, hb, hu, finalUrlCell, desiredCountOf]

/-- C7: the externally delegated steps occur in the spec's order
(configuration load, artifact fetch, package-and-upload, endpoint definition
and deployment, local build and run, registry push, scale-up, teardown): the
trace's phase projection is exactly the expected monotone sequence, so in
particular the desired count is never raised before the push and the endpoint
is deployed before any container is built. -/
theorem notebook_step_order (env : Env) :
    (notebookTrace env).filterMap phaseOf
      = (if env.dotenvFileExists then [1] else [])
        ++ [2, 2, 3, 3, 4, 4, 5, 5, 5, 5, 6, 6, 6, 7, 8, 8, 8]
    ∧ List.Sorted (· ≤ ·) ((notebookTrace env).filterMap phaseOf) := by
  have h : (notebookTrace env).filterMap phaseOf
      = (if env.dotenvFileExists then [1] else [])
        ++ [2, 2, 3, 3, 4, 4, 5, 5, 5, 5, 6, 6, 6, 7, 8, 8, 8] := by
    cases hb : env.dotenvFileExists <;>
      by_cases hu : env.DASHBOARD_URL = env.DASHBOARD_ALB <;>
        simp [notebookTrace, hb, hu, finalUrlCell, phaseOf]
  refine ⟨h, ?_⟩
  rw [h]
  cases hb : env.dotenvFileExists <;> simp

theorem runActions_error_of (effect : Action → Except String Unit) :
    ∀ (l : List Action) (k : Nat) (hk : k < l.length) (e : String),
      (∀ a ∈ l.take k, effect a = Except.ok ()) →
      effect (l.get ⟨k, hk⟩) = Except.error e →
      runActions effect l = Except.error e
      ∧ attemptedActions effect l = l.take (k + 1) := by
  intro l
  induction l with
  | nil =>
    intro k hk
    exact absurd hk (Nat.not_lt_zero k)
  | cons a t ih =>
    intro k hk e hbefore herr
    cases k with
    | zero =>
      have ha : effect a = Except.error e := herr
      exact ⟨by simp [runActions, ha], by simp [attemptedActions, ha]⟩
    | succ j =>
      have ha : effect a = Except.ok () := by
        refine hbefore a ?_
        simp [List.take_succ_cons]
      have hk' : j < t.length := by simpa using hk
      have herr' : effect (t.get ⟨j, hk'⟩) = Except.error e := herr
      have hb' : ∀ x ∈ t.take j, effect x = Except.ok () := by
        intro x hx
        refine hbefore x ?_
        simp [List.take_succ_cons, hx]
      obtain ⟨h1, h2⟩ := ih j hk' e hb' herr'
      exact ⟨by simp [runActions, ha, h1],
        by simp [attemptedActions, ha, h2, List.take_succ_cons]⟩

theorem attemptedActions_take (effect : Action → Except String Unit) :
    ∀ l : List Action,
      attemptedActions effect l
        = l.take (attemptedActions effect l).length := by
  intro l
  induction l with
  | nil => rfl
  | cons a t ih =>
    cases h : effect a with
    | error e => simp [attemptedActions, h]
    | ok u =>
      cases u
      simp only [attemptedActions, h, List.length_cons, List.take_succ_cons,
        List.cons.injEq, true_and]
      exact ih

theorem runActions_ok_attempted_all (effect : Action → Except String Unit) :
    ∀ l : List Action,
      runActions effect l = Except.ok () → attemptedActions effect l = l := by
  intro l
  induction l with
  | nil => intro _; rfl
  | cons a t ih =>
    intro hr
    cases h : effect a with
    | error e => simp [runActions, h] at hr
    | ok u =>
      cases u
      simp only [runActions, h] at hr
      simp [attemptedActions, h, ih hr]

/-- C8: no operation of the notebook installs an error handler, transforms
errors or retries: under any effect assignment, if the calls before position
`k` succeed and the call at `k` raises `e`, the whole run terminates with
exactly that error, and the attempted calls are precisely the first `k + 1`
trace entries, each attempted once — no failing call is re-attempted. -/
theorem errors_propagate_unchanged (env : Env)
    (effect : Action → Except String Unit) (k : Nat)
    (hk : k < (notebookTrace env).length) (e : String)
    (hbefore : ∀ a ∈ (notebookTrace env).take k, effect a = Except.ok ())
    (herr : effect ((notebookTrace env).get ⟨k, hk⟩) = Except.error e) :
    runActions effect (notebookTrace env) = Except.error e
    ∧ attemptedActions effect (notebookTrace env)
        = (notebookTrace env).take (k + 1) :=
  runActions_error_of effect (notebookTrace env) k hk e hbefore herr

/-- Witness for C8: a run of the concrete trace on which the first artifact
fetch raises `boom`. -/
theorem errors_propagate_unchanged_witness :
    runActions failFetchEffect (notebookTrace env0) = Except.error "boom"
    ∧ attemptedActions failFetchEffect (notebookTrace env0)
        = (notebookTrace env0).take 1 := by
  refine errors_propagate_unchanged env0 failFetchEffect 0 ?_ "boom" ?_ ?_
  · simp [notebookTrace, env0]
  · intro a ha
    simp at ha
  · rfl

/-- C9: the notebook's own execution is strictly sequential: under every
effect assignment the attempted calls form an in-order leading segment of the
trace (each step starts only after the previous one returned), and a fully
successful run attempts every trace entry exactly once, in trace order. -/
theorem execution_strictly_sequential (env : Env)
    (effect : Action → Except String Unit) :
    attemptedActions effect (notebookTrace env)
      = (notebookTrace env).take
          (attemptedActions effect (notebookTrace env)).length
    ∧ (runActions effect (notebookTrace env) = Except.ok () →
        attemptedActions effect (notebookTrace env) = notebookTrace env) :=
  ⟨attemptedActions_take effect (notebookTrace env),
   runActions_ok_attempted_all effect (notebookTrace env)⟩

/-- Witness for C9: the sequentiality facts at the concrete inputs and the
all-succeed effect assignment. -/
theorem execution_strictly_sequential_witness :
    attemptedActions okEffect (notebookTrace env0)
      = (notebookTrace env0).take
          (attemptedActions okEffect (notebookTrace env0)).length
    ∧ (runActions okEffect (notebookTrace env0) = Except.ok () →
        attemptedActions okEffect (notebookTrace env0) = notebookTrace env0) :=
  execution_strictly_sequential env0 okEffect

/-- C10: at the final URL cell, a CNAME warning is emitted if and only if
`DASHBOARD_URL` and `DASHBOARD_ALB` are unequal, and in every case the one
line printed is exactly `DASHBOARD_URL: https://` followed by the value of
`DASHBOARD_URL`. -/
theorem final_url_cell_warning_iff (url alb : String) :
    ((∃ m, Action.warn m ∈ finalUrlCell url alb) ↔ url ≠ alb)
    ∧ (∀ l, Action.printLine l ∈ finalUrlCell url alb
        ↔ l = "DASHBOARD_URL: https://" ++ url) := by
  by_cases h : url = alb <;> simp [finalUrlCell, h]

end Dashboards
